import Mathlib

/-!
Shallow embedding of the core logic of the ai-article-studio repository:
the key store (src/components/SettingsDialog.tsx) and the orchestrator,
provider clients and content fetcher (src/pages/Index.tsx).

Browser storage (localStorage / sessionStorage) is modelled as a pair of
partial maps from string keys to string values.  Network calls and the
platform URL parser are modelled by explicit outcome parameters: the pure
control flow of each source function is embedded faithfully, with every
point where the source awaits the platform replaced by a case split on the
outcome the platform could deliver.
-/

set_option maxRecDepth 2000

/-- A browser key-value store: a partial map from keys to values. -/
def KVStore : Type := String → Option String

/-- The pair of browser stores the app writes to. -/
structure Storage where
  localStore : KVStore
  sessionStore : KVStore

/-- Storage with nothing persisted in either store. -/
def emptyStorage : Storage := ⟨fun _ => none, fun _ => none⟩

/-- storage.setItem on localStorage. -/
def Storage.setLocal (σ : Storage) (k v : String) : Storage :=
  { σ with localStore := fun x => if x = k then some v else σ.localStore x }

/-- storage.setItem on sessionStorage. -/
def Storage.setSession (σ : Storage) (k v : String) : Storage :=
  { σ with sessionStore := fun x => if x = k then some v else σ.sessionStore x }

/-- storage.removeItem on localStorage. -/
def Storage.removeLocal (σ : Storage) (k : String) : Storage :=
  { σ with localStore := fun x => if x = k then none else σ.localStore x }

/-- storage.removeItem on sessionStorage. -/
def Storage.removeSession (σ : Storage) (k : String) : Storage :=
  { σ with sessionStore := fun x => if x = k then none else σ.sessionStore x }

/-- setItem on the store selected by a flag (true = sessionStorage),
mirroring the `target`/`other` selection in onSave. -/
def Storage.setItem (σ : Storage) (inSession : Bool) (k v : String) : Storage :=
  if inSession then σ.setSession k v else σ.setLocal k v

/-- removeItem on the store selected by a flag (true = sessionStorage). -/
def Storage.removeItem (σ : Storage) (inSession : Bool) (k : String) : Storage :=
  if inSession then σ.removeSession k else σ.removeLocal k

/-- JavaScript `a || b` on a possibly-absent string: absent and the empty
string are both falsy, so they fall through to the default. -/
def jsOr (a : Option String) (b : String) : String :=
  match a with
  | none => b
  | some s => if s = "" then b else s

/-- `export type Provider = "openai" | "gemini"` from SettingsDialog.tsx. -/
inductive Provider where
  | openai
  | gemini
deriving DecidableEq, Repr

/-- The string the provider value is persisted as. -/
def Provider.toStr : Provider → String
  | .openai => "openai"
  | .gemini => "gemini"

/-- The storage mode union type `"local" | "session"` from
SettingsDialog.tsx; `localMode` is the durable store, `sessionMode` the
ephemeral one. -/
inductive StoreMode where
  | localMode
  | sessionMode
deriving DecidableEq, Repr

/-- The string the storage mode is persisted as. -/
def StoreMode.toStr : StoreMode → String
  | .localMode => "local"
  | .sessionMode => "session"

/-- True when keys are to be written to sessionStorage. -/
def StoreMode.isSession : StoreMode → Bool
  | .localMode => false
  | .sessionMode => true

/-- The localStorage key under which the API key of a provider is stored
(LOCAL_KEYS.openai / LOCAL_KEYS.gemini). -/
def keyName : Provider → String
  | .openai => "openai_api_key"
  | .gemini => "gemini_api_key"

/-- getStoredProvider from SettingsDialog.tsx: read "ai_provider" from
localStorage, default "openai" on absence or empty string, and map any
value other than "gemini" to openai. -/
def getStoredProvider (σ : Storage) : Provider :=
  let p := jsOr (σ.localStore "ai_provider") "openai"
  if p = "gemini" then .gemini else .openai

/-- getApiKey from SettingsDialog.tsx: read the mode flag from
localStorage (default "local"), pick sessionStorage exactly when the flag
is "session", and read the API key of the provider from that store. -/
def getApiKey (σ : Storage) (provider : Provider) : Option String :=
  let mode := jsOr (σ.localStore "ai_store_mode") "local"
  let store := if mode = "session" then σ.sessionStore else σ.localStore
  store (keyName provider)

/-- onSave from SettingsDialog.tsx: persist provider and mode to
localStorage unconditionally; write each non-empty key to the store
matching the mode (removing it there when the field is empty); then remove
both keys from the other store. -/
def onSave (σ : Storage) (provider : Provider) (storeMode : StoreMode)
    (openaiKey geminiKey : String) : Storage :=
  let σ1 := σ.setLocal "ai_provider" provider.toStr
  let σ2 := σ1.setLocal "ai_store_mode" storeMode.toStr
  let tgt := storeMode.isSession
  let σ3 := if openaiKey ≠ "" then σ2.setItem tgt "openai_api_key" openaiKey
            else σ2.removeItem tgt "openai_api_key"
  let σ4 := if geminiKey ≠ "" then σ3.setItem tgt "gemini_api_key" geminiKey
            else σ3.removeItem tgt "gemini_api_key"
  let σ5 := σ4.removeItem (!tgt) "openai_api_key"
  σ5.removeItem (!tgt) "gemini_api_key"

/-- A character of the JavaScript regex class \s (ECMAScript WhiteSpace
and LineTerminator), which is also the set String.prototype.trim
removes. -/
def isJsWs (c : Char) : Bool :=
  let n := c.toNat
  n == 32 || n == 9 || n == 10 || n == 11 || n == 12 || n == 13 ||
  n == 0xa0 || n == 0x1680 || (0x2000 ≤ n && n ≤ 0x200a) ||
  n == 0x2028 || n == 0x2029 || n == 0x202f || n == 0x205f ||
  n == 0x3000 || n == 0xfeff

/-- One pass over the characters implementing
`replace(/\s+/g, " ")`: every maximal run of whitespace characters
becomes a single space.  The flag records whether the previous character
was part of a whitespace run. -/
def collapseWsAux : Bool → List Char → List Char
  | _, [] => []
  | inRun, c :: cs =>
    if isJsWs c then
      if inRun then collapseWsAux true cs
      else ' ' :: collapseWsAux true cs
    else c :: collapseWsAux false cs

/-- JavaScript `s.replace(/\s+/g, " ")`. -/
def collapseWs (s : String) : String := String.mk (collapseWsAux false s.data)

/-- JavaScript `s.trim()`: drop WhiteSpace and LineTerminator characters
from both ends. -/
def jsTrim (s : String) : String :=
  String.mk (((s.data.dropWhile isJsWs).reverse.dropWhile isJsWs).reverse)

/-- JavaScript `s.slice(0, n)` for non-negative n. -/
def jsSlice (s : String) (n : Nat) : String := String.mk (s.data.take n)

/-- The number of characters of a string (JavaScript `s.length`,
identifying characters with UTF-16 code units, exact for all source
inputs below the astral planes). -/
def jsLength (s : String) : Nat := s.data.length

/-- A value a JavaScript property read on the presets object can
produce: a number held by an own data property, or an inherited
Object.prototype member (a function for the named methods, the prototype
object itself for the accessor member) — never null or undefined. -/
inductive JsValue where
  | num (n : Nat)
  | protoMember (name : String)
deriving DecidableEq, Repr

/-- The property names a plain object literal inherits from
Object.prototype in a browser, including the Annex B legacy accessor
definers: a bracket lookup with any of these names yields a non-nullish
inherited member rather than undefined. -/
def objectProtoMembers : List String :=
  ["constructor", "hasOwnProperty", "isPrototypeOf",
   "propertyIsEnumerable", "toLocaleString", "toString", "valueOf",
   "__proto__", "__defineGetter__", "__defineSetter__",
   "__lookupGetter__", "__lookupSetter__"]

/-- LENGTH_PRESETS from Index.tsx: the bracket lookup
`LENGTH_PRESETS[length]` on the object literal {short: 300, medium: 700,
long: 1200}.  The three own properties hold numbers; any other name is
looked up on the prototype chain, so the Object.prototype member names
yield the inherited member and only the remaining names yield undefined
(none). -/
def LENGTH_PRESETS : String → Option JsValue := fun l =>
  if l = "short" then some (.num 300)
  else if l = "medium" then some (.num 700)
  else if l = "long" then some (.num 1200)
  else if l ∈ objectProtoMembers then some (.protoMember l)
  else none

/-- `LENGTH_PRESETS[length] ?? LENGTH_PRESETS.medium` from Index.tsx:
nullish coalescing replaces only undefined (and null) with the medium
count 700; an inherited prototype member is non-nullish and is kept. -/
def genWords (lengthSel : String) : JsValue :=
  (LENGTH_PRESETS lengthSel).getD (.num 700)

/-- Template-literal rendering of the words value: a number renders as
its decimal numeral; the inherited members are functions the host
renders as native-code function sources (the constructor member being
the Object constructor), except the accessor member, whose read yields
Object.prototype and renders as the default object text.  The function
texts follow the common engine rendering; no theorem below depends on
them beyond their being distinct from a decimal numeral. -/
def jsToString : JsValue → String
  | .num n => toString n
  | .protoMember name =>
    if name = "__proto__" then "[object Object]"
    else if name = "constructor" then
      "function Object() \x7b [native code] \x7d"
    else "function " ++ name ++ "() \x7b [native code] \x7d"

/-- MAX_TEXT from Index.tsx. -/
def MAX_TEXT : Nat := 12000

/-- ensureKey from Index.tsx: the key is usable when it is present and
non-empty (JavaScript truthiness of `providerKey`). -/
def ensureKey : Option String → Bool
  | none => false
  | some s => s != ""

/-- The generation prompt built by onGenerate, embedding the rendering
of the words value in the template literal. -/
def genPrompt (cleanTopic : String) (words : JsValue) : String :=
  "Write an informative, SEO-friendly article about \"" ++ cleanTopic ++
  "\" in about " ++ jsToString words ++
  " words. Use clear headings and short paragraphs. End with a brief conclusion."

/-- The summarization prompt built by onSummarize. -/
def sumPrompt (text : String) : String :=
  "Summarize the following article in a concise, clear, bullet-point format under 150 words.\n\nArticle:\n"
  ++ text

/-- The outcome of onGenerate up to the point a provider client would be
invoked.  The `call` constructor is the only network action; the error
constructors carry the toast message and are classified per the error
taxonomy: validation failures of the topic versus the missing-key
configuration failure. -/
inductive GenOutcome where
  | validationError (msg : String)
  | configError (msg : String)
  | call (provider : Provider) (prompt : String)
deriving DecidableEq, Repr

/-- onGenerate from Index.tsx: collapse and trim the topic, reject an
empty or over-120-character topic, reject a missing key, otherwise build
the prompt with the preset word count (falling back to the medium 700)
and dispatch to the provider client of the active provider. -/
def onGenerate (topic lengthSel : String) (provider : Provider)
    (providerKey : Option String) : GenOutcome :=
  let cleanTopic := jsTrim (collapseWs topic)
  if cleanTopic = "" then
    .validationError "Please enter a topic or keyword."
  else if 120 < jsLength cleanTopic then
    .validationError "Topic is too long (max 120 characters)."
  else if !(ensureKey providerKey) then
    .configError "Add your API key in Settings (top right)."
  else
    .call provider (genPrompt cleanTopic (genWords lengthSel))

/-- The outcome the platform can deliver for a provider API call:
either the fetch itself rejects (network failure, or the abort raised by
the 30-second timer), carrying the message of the raised error, or a
response arrives with an HTTP status and a body whose JSON parse either
rejects with an error message or yields the extracted response path (the
optional string at choices[0].message.content for variant A, at
candidates[0].content.parts[0].text for variant B). -/
inductive ApiNet where
  | netThrow (msg : String)
  | resp (status : Nat) (json : Except String (Option String))
deriving Repr

/-- What a provider client call produced: a resolved text, or a raised
error carrying its message. -/
inductive CallResult where
  | ok (text : String)
  | err (msg : String)
deriving DecidableEq, Repr

/-- `res.ok` of the fetch API: status in the inclusive range 200-299. -/
def statusOk (status : Nat) : Bool := 200 ≤ status && status ≤ 299

/-- callOpenAI from Index.tsx, as a function of the platform outcome.
The second component counts how many times clearTimeout ran on the
30-second timer: the try/finally puts it on every exit path, so it is
always 1.  On a response, a non-2xx status raises "OpenAI error" with the
status; otherwise the content path is extracted, trimmed, with the empty
string when absent. -/
def callOpenAI : ApiNet → CallResult × Nat
  | .netThrow m => (.err m, 1)
  | .resp status json =>
    if statusOk status then
      match json with
      | .error m => (.err m, 1)
      | .ok content =>
        (.ok (match content with
              | some c => jsTrim c
              | none => ""), 1)
    else (.err ("OpenAI error " ++ toString status), 1)

/-- callGemini from Index.tsx, the same control flow with the Gemini
endpoint: non-2xx raises "Gemini error" with the status; on success the
text path defaults to the empty string and is then trimmed. -/
def callGemini : ApiNet → CallResult × Nat
  | .netThrow m => (.err m, 1)
  | .resp status json =>
    if statusOk status then
      match json with
      | .error m => (.err m, 1)
      | .ok content => (.ok (jsTrim (content.getD "")), 1)
    else (.err ("Gemini error " ++ toString status), 1)

/-- ASCII lower-casing, for the case-insensitive regex flag. -/
def asciiLower (c : Char) : Char :=
  if 'A' ≤ c ∧ c ≤ 'Z' then Char.ofNat (c.toNat + 32) else c

/-- Case-insensitive character comparison (regex flag i). -/
def ciEq (a b : Char) : Bool := asciiLower a == asciiLower b

/-- Match a literal pattern case-insensitively at the head of the input,
returning the rest of the input past the pattern. -/
def matchLitCI : List Char → List Char → Option (List Char)
  | [], l => some l
  | _ :: _, [] => none
  | p :: ps, c :: cs => if ciEq p c then matchLitCI ps cs else none

/-- Consume the regex fragment `[^>]*>`: drop characters up to and
including the first closing angle bracket, failing when there is none. -/
def skipToGt : List Char → Option (List Char)
  | [] => none
  | c :: cs => if c == '>' then some cs else skipToGt cs

/-- Match the opening-tag fragment `<tag[^>]*>` (case-insensitive) at the
head of the input. -/
def matchOpenTag (tag : List Char) : List Char → Option (List Char)
  | [] => none
  | c :: cs =>
    if c == '<' then
      match matchLitCI tag cs with
      | some rest => skipToGt rest
      | none => none
    else none

/-- The lazy `[\s\S]*?pat`: scan to the first case-insensitive occurrence
of the closing pattern and return the input past it. -/
def findCloseCI (pat : List Char) : List Char → Option (List Char)
  | [] => none
  | c :: cs =>
    match matchLitCI pat (c :: cs) with
    | some rest => some rest
    | none => findCloseCI pat cs

/-- Global removal of `<tag[^>]*>[\s\S]*?closePat` blocks, one character
of fuel per input character: at each position, remove a full block when
both the opening tag and, lazily, the closing pattern match; otherwise
emit the character and rescan from the next one, exactly as the global
regex replace does. -/
def stripBlocksAux (tag closePat : List Char) : Nat → List Char → List Char
  | 0, l => l
  | _ + 1, [] => []
  | fuel + 1, c :: cs =>
    match matchOpenTag tag (c :: cs) with
    | some afterOpen =>
      match findCloseCI closePat afterOpen with
      | some afterClose => stripBlocksAux tag closePat fuel afterClose
      | none => c :: stripBlocksAux tag closePat fuel cs
    | none => c :: stripBlocksAux tag closePat fuel cs

/-- `replace(/<tag[^>]*>[\s\S]*?closePat/gi, "")`. -/
def stripBlocks (tag closePat : List Char) (l : List Char) : List Char :=
  stripBlocksAux tag closePat l.length l

/-- Match the regex `<[^>]+>` at the head of the input: an angle bracket,
at least one non-bracket character, then the closing bracket. -/
def matchAnyTag : List Char → Option (List Char)
  | '<' :: c :: cs => if c == '>' then none else skipToGt (c :: cs)
  | _ => none

/-- `replace(/<[^>]+>/g, " ")`, with the same fuel discipline. -/
def stripTagsAux : Nat → List Char → List Char
  | 0, l => l
  | _ + 1, [] => []
  | fuel + 1, c :: cs =>
    match matchAnyTag (c :: cs) with
    | some rest => ' ' :: stripTagsAux fuel rest
    | none => c :: stripTagsAux fuel cs

/-- The plaintext extraction pipeline of tryFetchUrlContent: strip
script blocks, strip style blocks, replace remaining tags by spaces,
collapse whitespace runs and trim. -/
def extractVisibleText (html : String) : String :=
  let l1 := stripBlocks "script".data "</script>".data html.data
  let l2 := stripBlocks "style".data "</style>".data l1
  let l3 := stripTagsAux l2.length l2
  jsTrim (collapseWs (String.mk l3))

/-- The outcome the platform can deliver for the content fetch: the fetch
rejects (network failure or the abort raised by the 8-second timer), or a
response arrives with a status and a body read that either rejects
(none) or yields the HTML text. -/
inductive FetchNet where
  | netThrow
  | resp (status : Nat) (body : Option String)
deriving DecidableEq, Repr

/-- Everything observable about one run of tryFetchUrlContent: its
return value, whether the network request was issued, whether the
8-second timer was armed, and how many times clearTimeout ran on it. -/
structure FetchTrace where
  result : Option String
  requested : Bool
  timerArmed : Bool
  timerCleared : Nat
deriving DecidableEq, Repr

/-- tryFetchUrlContent from Index.tsx, as a function of the outcome of
the platform URL parser on the input (none when `new URL` throws,
otherwise the parsed protocol with its trailing colon) and of the
network.  A parse failure is caught and yields null; a non-http(s)
protocol returns null before the timer is armed or any request made;
after the fetch resolves, clearTimeout runs once and a non-2xx status or
a failed body read yields null; when the fetch itself rejects, the catch
returns null without running clearTimeout. -/
def tryFetchUrlContent (protocol : Option String) (net : FetchNet) :
    FetchTrace :=
  match protocol with
  | none => ⟨none, false, false, 0⟩
  | some proto =>
    if proto = "http:" ∨ proto = "https:" then
      match net with
      | .netThrow => ⟨none, true, true, 0⟩
      | .resp status body =>
        if statusOk status then
          match body with
          | none => ⟨none, true, true, 1⟩
          | some html => ⟨some (extractVisibleText html), true, true, 1⟩
        else ⟨none, true, true, 1⟩
    else ⟨none, false, false, 0⟩

/-- The outcome of onSummarize up to the point a provider client would be
invoked.  `call` carries the active provider, the built prompt and
whether the truncation warning toast was emitted. -/
inductive SumOutcome where
  | configError (msg : String)
  | validationError (msg : String)
  | fetchError (msg : String)
  | call (provider : Provider) (prompt : String) (truncated : Bool)
deriving DecidableEq, Repr

/-- The tail of onSummarize after a source text has been resolved: reject
when no text is available, truncate to MAX_TEXT characters with a warning
when over the bound, then build the prompt and dispatch. -/
def summarizeWith (provider : Provider) (text : String) : SumOutcome :=
  if text = "" then .validationError "Paste text or provide a URL."
  else if MAX_TEXT < jsLength text then
    .call provider (sumPrompt (jsSlice text MAX_TEXT)) true
  else .call provider (sumPrompt text) false

/-- onSummarize from Index.tsx.  `urlProtocol` is the outcome of the
platform URL parser on the trimmed sourceUrl (none when `new URL` throws,
otherwise the protocol including the trailing colon); `fetched` is the
value the content fetcher resolved to.  The trimmed sourceText takes
priority; the URL branch runs only when the text is empty and a URL was
given, failing on a non-http(s) scheme and on a fetch that yielded
nothing (absent or empty, both falsy). -/
def onSummarize (sourceText sourceUrl : String) (provider : Provider)
    (providerKey : Option String) (urlProtocol : Option String)
    (fetched : Option String) : SumOutcome :=
  if !(ensureKey providerKey) then
    .configError "Add your API key in Settings (top right)."
  else
    let text := jsTrim sourceText
    if text = "" ∧ jsTrim sourceUrl ≠ "" then
      match urlProtocol with
      | none => .validationError "Enter a valid http(s) URL."
      | some proto =>
        if proto = "http:" ∨ proto = "https:" then
          if fetched.getD "" = "" then
            .fetchError "Could not fetch URL (CORS). Please paste the article text."
          else summarizeWith provider (fetched.getD "")
        else .validationError "Enter a valid http(s) URL."
    else summarizeWith provider text

/-- C3: round-trip through the key store: after save(provider = gemini,
mode = durable, keyA = "", keyB = "g-key"), getStoredProvider returns
gemini, getApiKey gemini returns "g-key", and getApiKey openai is absent
(the empty openai key is cleared, not stored), from any prior storage
state. -/
theorem save_durable_roundtrip (σ : Storage) :
    getStoredProvider (onSave σ .gemini .localMode "" "g-key") = .gemini ∧
    getApiKey (onSave σ .gemini .localMode "" "g-key") .gemini = some "g-key" ∧
    getApiKey (onSave σ .gemini .localMode "" "g-key") .openai = none := by
  refine ⟨?_, ?_, ?_⟩ <;> rfl

/-- C9: getStoredProvider returns gemini exactly when the persisted value
is the string "gemini"; on an absent value or any other string (including
the empty string) it returns the default provider openai. -/
theorem getStoredProvider_default (σ : Storage) :
    (σ.localStore "ai_provider" = some "gemini" →
      getStoredProvider σ = .gemini) ∧
    (σ.localStore "ai_provider" = none → getStoredProvider σ = .openai) ∧
    (∀ s, σ.localStore "ai_provider" = some s → s ≠ "gemini" →
      getStoredProvider σ = .openai) := by
  refine ⟨?_, ?_, ?_⟩
  · intro h
    simp [getStoredProvider, jsOr, h]
  · intro h
    simp [getStoredProvider, jsOr, h]
  · intro s h hne
    by_cases hs : s = ""
    · subst hs
      simp [getStoredProvider, jsOr, h]
    · simp [getStoredProvider, jsOr, h, hs, hne]

/-- Witness for C3 at the empty storage: the round-trip read-back of the
durable gemini save. -/
theorem save_durable_roundtrip_witness :
    getStoredProvider (onSave emptyStorage .gemini .localMode "" "g-key") =
      .gemini ∧
    getApiKey (onSave emptyStorage .gemini .localMode "" "g-key") .gemini =
      some "g-key" ∧
    getApiKey (onSave emptyStorage .gemini .localMode "" "g-key") .openai =
      none :=
  save_durable_roundtrip emptyStorage

/-- C1: key-store mutual exclusion.  After every save, the store that
does not match the saved mode holds no API key for either provider;
getApiKey reads from the store matching the persisted mode; and a key
saved under the ephemeral (session) mode is invisible to getApiKey once
the persisted mode flag is switched back to durable (local). -/
theorem key_store_mutual_exclusion (σ : Storage) (p : Provider)
    (m : StoreMode) (kA kB : String) :
    (m = .sessionMode →
      (onSave σ p m kA kB).localStore "openai_api_key" = none ∧
      (onSave σ p m kA kB).localStore "gemini_api_key" = none) ∧
    (m = .localMode →
      (onSave σ p m kA kB).sessionStore "openai_api_key" = none ∧
      (onSave σ p m kA kB).sessionStore "gemini_api_key" = none) ∧
    (∀ q, getApiKey (onSave σ p m kA kB) q =
      (if m.isSession then (onSave σ p m kA kB).sessionStore
       else (onSave σ p m kA kB).localStore) (keyName q)) ∧
    (∀ q, getApiKey
      ((onSave σ p .sessionMode kA kB).setLocal "ai_store_mode" "local")
      q = none) := by
  refine ⟨?_, ?_, ?_, ?_⟩
  · rintro rfl
    by_cases hA : kA = "" <;> by_cases hB : kB = "" <;>
      simp [onSave, Storage.setItem, Storage.removeItem, Storage.setLocal,
        Storage.setSession, Storage.removeLocal, Storage.removeSession,
        StoreMode.isSession, hA, hB]
  · rintro rfl
    by_cases hA : kA = "" <;> by_cases hB : kB = "" <;>
      simp [onSave, Storage.setItem, Storage.removeItem, Storage.setLocal,
        Storage.setSession, Storage.removeLocal, Storage.removeSession,
        StoreMode.isSession, hA, hB]
  · intro q
    cases m <;> cases q <;> by_cases hA : kA = "" <;> by_cases hB : kB = "" <;>
      simp [onSave, getApiKey, jsOr, keyName, Provider.toStr, StoreMode.toStr,
        Storage.setItem, Storage.removeItem, Storage.setLocal,
        Storage.setSession, Storage.removeLocal, Storage.removeSession,
        StoreMode.isSession, hA, hB]
  · intro q
    cases q <;> by_cases hA : kA = "" <;> by_cases hB : kB = "" <;>
      simp [onSave, getApiKey, jsOr, keyName, Provider.toStr, StoreMode.toStr,
        Storage.setItem, Storage.removeItem, Storage.setLocal,
        Storage.setSession, Storage.removeLocal, Storage.removeSession,
        StoreMode.isSession, hA, hB]

/-- Witness for C1 at a concrete input: saving the key "x" for openai
under the session mode leaves no openai or gemini key in localStorage,
getApiKey reads "x" back from sessionStorage, and after the persisted
mode is switched to "local" the key is invisible. -/
theorem key_store_mutual_exclusion_witness :
    (onSave emptyStorage .openai .sessionMode "x" "").localStore
      "openai_api_key" = none ∧
    getApiKey (onSave emptyStorage .openai .sessionMode "x" "") .openai =
      (onSave emptyStorage .openai .sessionMode "x" "").sessionStore
        "openai_api_key" ∧
    getApiKey
      ((onSave emptyStorage .openai .sessionMode "x" "").setLocal
        "ai_store_mode" "local") .openai = none := by
  refine ⟨?_, ?_, ?_⟩
  · exact ((key_store_mutual_exclusion emptyStorage .openai .sessionMode
      "x" "").1 rfl).1
  · exact (key_store_mutual_exclusion emptyStorage .openai .sessionMode
      "x" "").2.2.1 .openai
  · exact (key_store_mutual_exclusion emptyStorage .openai .sessionMode
      "x" "").2.2.2 .openai

/-- Witness for C9 at concrete stores: a corrupted value "grok" and an
absent value both read back as openai, and "gemini" reads back as
gemini. -/
theorem getStoredProvider_default_witness :
    getStoredProvider (emptyStorage.setLocal "ai_provider" "grok") = .openai ∧
    getStoredProvider emptyStorage = .openai ∧
    getStoredProvider (emptyStorage.setLocal "ai_provider" "gemini") = .gemini := by
  refine ⟨?_, ?_, ?_⟩
  · exact (getStoredProvider_default
      (emptyStorage.setLocal "ai_provider" "grok")).2.2 "grok" rfl (by decide)
  · exact (getStoredProvider_default emptyStorage).2.1 rfl
  · exact (getStoredProvider_default
      (emptyStorage.setLocal "ai_provider" "gemini")).1 rfl

/-- C4: onGenerate rejects with a validation error, and never reaches a
provider call, both when the collapsed-and-trimmed topic is empty and
when it exceeds 120 characters. -/
theorem generate_topic_validation (topic lengthSel : String)
    (provider : Provider) (key : Option String) :
    (jsTrim (collapseWs topic) = "" →
      onGenerate topic lengthSel provider key =
        .validationError "Please enter a topic or keyword.") ∧
    (120 < jsLength (jsTrim (collapseWs topic)) →
      onGenerate topic lengthSel provider key =
        .validationError "Topic is too long (max 120 characters).") ∧
    ((jsTrim (collapseWs topic) = "" ∨
        120 < jsLength (jsTrim (collapseWs topic))) →
      ∀ p pr, onGenerate topic lengthSel provider key ≠ .call p pr) := by
  have h2 : 120 < jsLength (jsTrim (collapseWs topic)) →
      onGenerate topic lengthSel provider key =
        .validationError "Topic is too long (max 120 characters)." := by
    intro h
    have hne : jsTrim (collapseWs topic) ≠ "" := by
      intro he
      rw [he] at h
      simp [jsLength] at h
    simp [onGenerate, hne, h]
  refine ⟨?_, h2, ?_⟩
  · intro h
    simp [onGenerate, h]
  · rintro (h | h) p pr
    · simp [onGenerate, h]
    · rw [h2 h]
      simp

/-- Witness for C4: a whitespace-only topic and a 121-character topic are
both rejected before any provider call. -/
theorem generate_topic_validation_witness :
    onGenerate "   " "medium" .openai (some "k") =
      .validationError "Please enter a topic or keyword." ∧
    onGenerate (String.mk (List.replicate 121 'a')) "medium" .openai
      (some "k") =
      .validationError "Topic is too long (max 120 characters)." :=
  ⟨(generate_topic_validation "   " "medium" .openai (some "k")).1
    (by decide),
   (generate_topic_validation (String.mk (List.replicate 121 'a'))
    "medium" .openai (some "k")).2.1 (by decide)⟩

/-- C5 counterexample: with no key configured AND an empty topic,
onGenerate fails with the topic validation error, not with the
configuration error the claim requires, because topic validation runs
before the key check. -/
theorem generate_nokey_counterexample :
    onGenerate "" "medium" .openai none =
      .validationError "Please enter a topic or keyword." ∧
    ¬ ∃ m, onGenerate "" "medium" .openai none = GenOutcome.configError m := by
  constructor
  · rfl
  · rintro ⟨m, hm⟩
    rw [show onGenerate "" "medium" .openai none =
      .validationError "Please enter a topic or keyword." from rfl] at hm
    exact GenOutcome.noConfusion hm

/-- C5 amended: with no usable key, onSummarize always fails with the
configuration error, onGenerate fails with the configuration error
whenever the topic passes validation (otherwise with a validation error),
and in every case neither operation reaches a provider call. -/
theorem noKey_config_failure (topic lengthSel sourceText sourceUrl : String)
    (provider : Provider) (key : Option String)
    (urlProtocol fetched : Option String)
    (hk : ensureKey key = false) :
    onSummarize sourceText sourceUrl provider key urlProtocol fetched =
      .configError "Add your API key in Settings (top right)." ∧
    (jsTrim (collapseWs topic) ≠ "" →
      jsLength (jsTrim (collapseWs topic)) ≤ 120 →
      onGenerate topic lengthSel provider key =
        .configError "Add your API key in Settings (top right).") ∧
    (∀ p pr, onGenerate topic lengthSel provider key ≠ .call p pr) ∧
    (∀ p pr w, onSummarize sourceText sourceUrl provider key urlProtocol
      fetched ≠ .call p pr w) := by
  have hsum : onSummarize sourceText sourceUrl provider key urlProtocol
      fetched = .configError "Add your API key in Settings (top right)." := by
    simp [onSummarize, hk]
  refine ⟨hsum, ?_, ?_, ?_⟩
  · intro hne hlen
    simp [onGenerate, hne, Nat.not_lt.mpr hlen, hk]
  · intro p pr
    unfold onGenerate
    by_cases h1 : jsTrim (collapseWs topic) = ""
    · simp [h1]
    · by_cases h2 : 120 < jsLength (jsTrim (collapseWs topic))
      · simp [h1, h2]
      · simp [h1, h2, hk]
  · intro p pr w
    rw [hsum]
    simp

/-- Witness for C5 (amended): with an absent key, a valid topic is
rejected with the configuration error, as is any summarization
request. -/
theorem noKey_config_failure_witness :
    onSummarize "some text" "" .openai none none none =
      .configError "Add your API key in Settings (top right)." ∧
    onGenerate "Travel" "medium" .openai none =
      .configError "Add your API key in Settings (top right)." :=
  ⟨(noKey_config_failure "Travel" "medium" "some text" "" .openai none
      none none (by decide)).1,
   (noKey_config_failure "Travel" "medium" "some text" "" .openai none
      none none (by decide)).2.1 (by decide) (by decide)⟩

/-- C6: when the trimmed sourceText is non-empty and the key is usable,
onSummarize dispatches with the prompt built from the first MAX_TEXT
characters and a truncation warning when the trimmed text exceeds
MAX_TEXT characters (the truncated text having exactly MAX_TEXT
characters), and with the untruncated text and no warning otherwise. -/
theorem summarize_truncation (sourceText sourceUrl : String)
    (provider : Provider) (key : Option String)
    (urlProtocol fetched : Option String)
    (hk : ensureKey key = true) (hne : jsTrim sourceText ≠ "") :
    (MAX_TEXT < jsLength (jsTrim sourceText) →
      onSummarize sourceText sourceUrl provider key urlProtocol fetched =
        .call provider (sumPrompt (jsSlice (jsTrim sourceText) MAX_TEXT))
          true ∧
      jsLength (jsSlice (jsTrim sourceText) MAX_TEXT) = MAX_TEXT) ∧
    (jsLength (jsTrim sourceText) ≤ MAX_TEXT →
      onSummarize sourceText sourceUrl provider key urlProtocol fetched =
        .call provider (sumPrompt (jsTrim sourceText)) false) := by
  constructor
  · intro h
    constructor
    · simp [onSummarize, hk, hne, summarizeWith, h]
    · simpa [jsLength, jsSlice] using Nat.le_of_lt h
  · intro h
    simp [onSummarize, hk, hne, summarizeWith, Nat.not_lt.mpr h]

/-- dropWhile leaves a replicate of a non-matching character intact. -/
lemma dropWhile_replicate_of_neg (p : Char → Bool) (a : Char)
    (h : p a = false) (n : Nat) :
    List.dropWhile p (List.replicate n a) = List.replicate n a := by
  cases n with
  | zero => rfl
  | succ m => simp [List.replicate_succ, List.dropWhile_cons, h]

/-- The JavaScript trim of a run of the letter a is the run itself. -/
lemma jsTrim_replicate_a (n : Nat) :
    jsTrim (String.mk (List.replicate n 'a')) =
      String.mk (List.replicate n 'a') := by
  have hx : isJsWs 'a' = false := by decide
  simp [jsTrim, dropWhile_replicate_of_neg _ _ hx, List.reverse_replicate]

/-- Witness for C6: a 15000-character text is truncated to exactly 12000
characters with the warning, and a short text passes through without
one. -/
theorem summarize_truncation_witness :
    onSummarize (String.mk (List.replicate 15000 'a')) "" .openai
      (some "k") none none =
      .call .openai
        (sumPrompt (jsSlice (jsTrim (String.mk (List.replicate 15000 'a')))
          MAX_TEXT)) true ∧
    onSummarize "short text" "" .openai (some "k") none none =
      .call .openai (sumPrompt (jsTrim "short text")) false := by
  have hlen : jsLength (jsTrim (String.mk (List.replicate 15000 'a'))) =
      15000 := by
    rw [jsTrim_replicate_a]
    show (List.replicate 15000 'a').length = 15000
    exact List.length_replicate 15000 'a'
  have hne : jsTrim (String.mk (List.replicate 15000 'a')) ≠ "" := by
    intro h
    rw [h] at hlen
    exact absurd hlen (by decide)
  have hlt : MAX_TEXT < jsLength (jsTrim (String.mk (List.replicate
      15000 'a'))) := by
    rw [hlen]
    decide
  exact ⟨((summarize_truncation (String.mk (List.replicate 15000 'a')) ""
      .openai (some "k") none none (by decide) hne).1 hlt).1,
    (summarize_truncation "short text" "" .openai (some "k") none none
      (by decide) (by decide)).2 (by decide)⟩

/-- C2 counterexample: in the content fetcher, when the fetch rejects
(network error, or the 8-second timer firing the abort), the catch path
returns with the timer armed but clearTimeout never run: the timer is not
released on that exit path. -/
theorem fetch_timer_not_cleared_counterexample :
    (tryFetchUrlContent (some "https:") .netThrow).timerArmed = true ∧
    (tryFetchUrlContent (some "https:") .netThrow).timerCleared = 0 := by
  decide

/-- C2 amended: both provider client variants run clearTimeout exactly
once on every exit path (their disarm sits in a finally block); the
content fetcher disarms its timer exactly once on every path on which
the fetch resolves to a response, but on a rejected fetch the catch path
returns without disarming. -/
theorem timer_discipline (apiNet : ApiNet) (protocol : Option String) :
    (callOpenAI apiNet).2 = 1 ∧
    (callGemini apiNet).2 = 1 ∧
    (∀ status body,
      (tryFetchUrlContent protocol (.resp status body)).timerArmed = true →
      (tryFetchUrlContent protocol (.resp status body)).timerCleared = 1) ∧
    ((tryFetchUrlContent protocol .netThrow).timerCleared = 0) := by
  refine ⟨?_, ?_, ?_, ?_⟩
  · cases apiNet with
    | netThrow m => rfl
    | resp s j =>
      by_cases h : statusOk s
      · cases j <;> simp [callOpenAI, h]
      · simp [callOpenAI, h]
  · cases apiNet with
    | netThrow m => rfl
    | resp s j =>
      by_cases h : statusOk s
      · cases j <;> simp [callGemini, h]
      · simp [callGemini, h]
  · intro status body h
    cases protocol with
    | none => simp [tryFetchUrlContent] at h
    | some proto =>
      by_cases hp : proto = "http:" ∨ proto = "https:"
      · by_cases hs : statusOk status
        · cases body <;> simp [tryFetchUrlContent, hp, hs]
        · simp [tryFetchUrlContent, hp, hs]
      · simp [tryFetchUrlContent, hp] at h
  · cases protocol with
    | none => rfl
    | some proto =>
      by_cases hp : proto = "http:" ∨ proto = "https:"
      · simp [tryFetchUrlContent, hp]
      · simp [tryFetchUrlContent, hp]

/-- Witness for C2 (amended): a provider call that rejects still clears
its timer once, and a fetch that resolves clears the fetch timer once. -/
theorem timer_discipline_witness :
    (callOpenAI (.netThrow "aborted")).2 = 1 ∧
    (tryFetchUrlContent (some "https:")
      (.resp 200 (some "<p>hi</p>"))).timerCleared = 1 :=
  ⟨(timer_discipline (.netThrow "aborted") (some "https:")).1,
   (timer_discipline (.netThrow "aborted") (some "https:")).2.2.1 200
     (some "<p>hi</p>") (by decide)⟩

/-- C7: the content fetcher always returns an optional text rather than
propagating an error; when the URL fails to parse, or parses to a scheme
other than http or https, it returns absent without issuing a network
request; and a rejected fetch also yields absent. -/
theorem fetch_scheme_guard (protocol : Option String) (net : FetchNet) :
    ((tryFetchUrlContent protocol net).result = none ∨
      ∃ t, (tryFetchUrlContent protocol net).result = some t) ∧
    (protocol = none →
      (tryFetchUrlContent protocol net).result = none ∧
      (tryFetchUrlContent protocol net).requested = false) ∧
    (∀ p, protocol = some p → p ≠ "http:" → p ≠ "https:" →
      (tryFetchUrlContent protocol net).result = none ∧
      (tryFetchUrlContent protocol net).requested = false) ∧
    (net = .netThrow → (tryFetchUrlContent protocol net).result = none) := by
  refine ⟨?_, ?_, ?_, ?_⟩
  · rcases hr : (tryFetchUrlContent protocol net).result with _ | t
    · exact Or.inl rfl
    · exact Or.inr ⟨t, rfl⟩
  · rintro rfl
    exact ⟨rfl, rfl⟩
  · rintro p rfl h1 h2
    have hp : ¬(p = "http:" ∨ p = "https:") := by
      rintro (h | h) <;> [exact h1 h; exact h2 h]
    cases net <;> simp [tryFetchUrlContent, hp]
  · rintro rfl
    cases protocol with
    | none => rfl
    | some proto =>
      by_cases hp : proto = "http:" ∨ proto = "https:"
      · simp [tryFetchUrlContent, hp]
      · simp [tryFetchUrlContent, hp]

/-- Witness for C7 at the ftp example: the WHATWG parser yields the
protocol "ftp:" for "ftp://example.com", and the fetcher returns absent
without a request whatever the network would have done. -/
theorem fetch_scheme_guard_witness :
    (tryFetchUrlContent (some "ftp:") (.resp 200 (some "x"))).result =
      none ∧
    (tryFetchUrlContent (some "ftp:")
      (.resp 200 (some "x"))).requested = false :=
  (fetch_scheme_guard (some "ftp:") (.resp 200 (some "x"))).2.2.1 "ftp:"
    rfl (by decide) (by decide)

/-- C8: the uniform provider client contract: on a 2xx status both
variants resolve to the trimmed extracted path, the empty string when the
path is absent; on a non-2xx status each rejects with an error carrying
its provider name and the HTTP status code. -/
theorem provider_client_contract (status : Nat) (content : Option String)
    (j : Except String (Option String)) :
    (statusOk status = true →
      (callOpenAI (.resp status (.ok content))).1 =
        .ok (match content with | some c => jsTrim c | none => "") ∧
      (callGemini (.resp status (.ok content))).1 =
        .ok (match content with | some c => jsTrim c | none => "")) ∧
    (statusOk status = false →
      (callOpenAI (.resp status j)).1 =
        .err ("OpenAI error " ++ toString status) ∧
      (callGemini (.resp status j)).1 =
        .err ("Gemini error " ++ toString status)) := by
  have hempty : jsTrim "" = "" := rfl
  constructor
  · intro h
    cases content <;> simp [callOpenAI, callGemini, h, hempty]
  · intro h
    cases j <;> simp [callOpenAI, callGemini, h]

/-- Witness for C8: a 200 response with content "  hi  " resolves to the
trimmed text in both variants, and a 404 rejects with the status in the
message. -/
theorem provider_client_contract_witness :
    (callOpenAI (.resp 200 (.ok (some "  hi  ")))).1 = .ok "hi" ∧
    (callGemini (.resp 404 (.ok none))).1 =
      .err ("Gemini error " ++ toString 404) :=
  ⟨((provider_client_contract 200 (some "  hi  ") (.ok none)).1
      (by decide)).1,
   ((provider_client_contract 404 (some "  hi  ") (.ok none)).2
      (by decide)).2⟩

/-- C10 counterexample: the preset value "toString" is outside
{short, medium, long}, yet the bracket lookup finds the inherited
Object.prototype member, nullish coalescing keeps it, and onGenerate
does not build the 700-word prompt: the program does not fall back to
the medium target for every unrecognized preset. -/
theorem length_preset_proto_counterexample :
    genWords "toString" = .protoMember "toString" ∧
    genWords "toString" ≠ .num 700 ∧
    onGenerate "Travel" "toString" .openai (some "k") ≠
      .call .openai (genPrompt (jsTrim (collapseWs "Travel")) (.num 700)) := by
  refine ⟨by decide, by decide, ?_⟩
  decide

/-- C10 amended: a length preset outside {short, medium, long} that is
not the name of an inherited Object.prototype member makes onGenerate
fall back silently to the medium word count 700 when building the
prompt, without failing; the three recognized presets map to 300, 700
and 1200 words; a preset naming an inherited Object.prototype member is
kept by the nullish coalescing instead of falling back. -/
theorem length_preset_fallback (topic lengthSel : String)
    (provider : Provider) (key : Option String)
    (hne : jsTrim (collapseWs topic) ≠ "")
    (hlen : jsLength (jsTrim (collapseWs topic)) ≤ 120)
    (hk : ensureKey key = true) :
    (lengthSel ≠ "short" → lengthSel ≠ "medium" → lengthSel ≠ "long" →
      lengthSel ∉ objectProtoMembers →
      onGenerate topic lengthSel provider key =
        .call provider
          (genPrompt (jsTrim (collapseWs topic)) (.num 700))) ∧
    LENGTH_PRESETS "short" = some (.num 300) ∧
    LENGTH_PRESETS "medium" = some (.num 700) ∧
    LENGTH_PRESETS "long" = some (.num 1200) ∧
    (lengthSel ∈ objectProtoMembers →
      genWords lengthSel = .protoMember lengthSel) := by
  refine ⟨?_, rfl, rfl, rfl, ?_⟩
  · intro h1 h2 h3 h4
    simp [onGenerate, hne, Nat.not_lt.mpr hlen, hk, genWords,
      LENGTH_PRESETS, h1, h2, h3, h4]
  · intro hm
    fin_cases hm <;> rfl

/-- Witness for C10 (amended): the unrecognized, non-prototype preset
"gigantic" produces a call with the 700-word prompt, and the prototype
member name "toString" resolves to the inherited member. -/
theorem length_preset_fallback_witness :
    onGenerate "Travel" "gigantic" .openai (some "k") =
      .call .openai
        (genPrompt (jsTrim (collapseWs "Travel")) (.num 700)) ∧
    genWords "toString" = .protoMember "toString" :=
  ⟨(length_preset_fallback "Travel" "gigantic" .openai (some "k")
      (by decide) (by decide) (by decide)).1 (by decide) (by decide)
      (by decide) (by decide),
   (length_preset_fallback "Travel" "toString" .openai (some "k")
      (by decide) (by decide) (by decide)).2.2.2.2 (by decide)⟩
